import Mathlib

/-!
Verification of the weather-fetch-and-normalize pipeline in
src/open_weather_api_helper.py: fetch_weather, parse_weather_data,
get_weather and get_forecast, shallowly embedded over a JSON-like
value type. Python dictionaries are association lists with string
keys; a Python function that can raise an uncaught exception is
embedded as an Option-valued function, with none standing for the
raised fault.
-/

/-- JSON-like values as produced by decoding a provider response body. -/
inductive JVal : Type where
  | null : JVal
  | boolean : Bool → JVal
  | num : ℚ → JVal
  | str : String → JVal
  | arr : List JVal → JVal
  | obj : List (String × JVal) → JVal

/-- A Python dictionary with string keys, as used throughout the helper module. -/
abbrev Dict := List (String × JVal)

/-- Python membership test: k in d (first component lookup). -/
def hasKey (d : Dict) (k : String) : Bool :=
  d.any (fun p => p.1 == k)

/-- Python d.get(k) with no default: some value when the key is present. -/
def dictGet (d : Dict) (k : String) : Option JVal :=
  (d.find? (fun p => p.1 == k)).map Prod.snd

/-- Python d.get(k, default): the stored value, or default when the key is absent.
Used for data.get with an explicit default on lines 45, 46 and 53 of the source. -/
def dictGetD (d : Dict) (k : String) (v : JVal) : JVal :=
  (dictGet d k).getD v

/-- Python v.get(k) on an arbitrary value: defined (returning None, embedded as
JVal.null, when the key is absent) only when v is a dictionary; on any other
value Python raises AttributeError, embedded as none. -/
def JVal.pyGet : JVal → String → Option JVal
  | .obj kvs, k => some (dictGetD kvs k .null)
  | _, _ => none

/-- Python v[0]: the head of a list, the first character of a nonempty string;
every other case raises (IndexError on an empty list or string, TypeError or
KeyError otherwise), embedded as none. -/
def pyIndex0 : JVal → Option JVal
  | .arr (x :: _) => some x
  | .str s => s.data.head?.map (fun c => .str (String.mk [c]))
  | _ => none

/-- Embedding of parse_weather_data (source lines 32 to 54). The result is
none exactly when the Python code raises: that happens on the subscript
data.get("weather", [the empty dict])[0] when the stored weather value is an
empty list, or on a .get applied to a non-dictionary nested value. Lookups of
"temp", "description", "humidity" and "speed" follow the evaluation order of
the returned dictionary literal. -/
def parse_weather_data (data : Dict) : Option Dict :=
  if hasKey data "error" then
    some [("error", dictGetD data "error" .null)]
  else
    (pyIndex0 (dictGetD data "weather" (.arr [.obj []]))).bind fun weather =>
    ((dictGetD data "main" (.obj [])).pyGet "temp").bind fun temp =>
    (weather.pyGet "description").bind fun condition =>
    ((dictGetD data "main" (.obj [])).pyGet "humidity").bind fun humidity =>
    ((dictGetD data "wind" (.obj [])).pyGet "speed").bind fun wind_speed =>
    some [("city", dictGetD data "name" .null),
          ("temperature", temp),
          ("condition", condition),
          ("humidity", humidity),
          ("wind_speed", wind_speed)]

/-- The provider response to one HTTP request: a status code and the decoded
JSON body. The request parameters (city, credential, units) only shape the
outbound request and never influence the branching in fetch_weather, so the
embedding takes the response directly. -/
structure HttpResponse : Type where
  status_code : Nat
  body : Dict

/-- Embedding of fetch_weather (source lines 11 to 30): the decoded body on
status 200, the in-band error record otherwise. -/
def fetch_weather (response : HttpResponse) : Dict :=
  if response.status_code = 200 then response.body
  else [("error", .str "Unable to fetch weather data")]

/-- Embedding of get_weather (source lines 56 to 67). -/
def get_weather (response : HttpResponse) : Option Dict :=
  parse_weather_data (fetch_weather response)

/-- One pass of the get_forecast loop (source lines 81 to 87) over the
remaining day indices, threading the accumulated forecast list. The first
component records which fetch calls were issued, in order; the second is the
final forecast, or none when parse_weather_data raises mid-loop (in which
case no further fetches are issued). -/
def forecastRun (fetch : Nat → Dict) : List Nat → List Dict → List Nat × Option (List Dict)
  | [], acc => ([], some acc)
  | i :: rest, acc =>
    match parse_weather_data (fetch i) with
    | none => ([i], none)
    | some parsed =>
      let r := forecastRun fetch rest
        (if hasKey parsed "error" then acc else acc ++ [parsed])
      (i :: r.1, r.2)

/-- Embedding of get_forecast (source lines 69 to 87). The i-th iteration of
for day in range(1, days + 1) performs the call fetch_weather(city); the
oracle fetch gives the raw payload returned by the i-th such call (counting
from 0), so the loop runs over List.range days.toNat — empty when days is
not positive, matching range(1, days + 1). -/
def get_forecast (fetch : Nat → Dict) (days : Int) : Option (List Dict) :=
  (forecastRun fetch (List.range days.toNat) []).2

/-- The sequence of fetch calls that get_forecast issues, in order. -/
def get_forecast_calls (fetch : Nat → Dict) (days : Int) : List Nat :=
  (forecastRun fetch (List.range days.toNat) []).1

/-- The contribution of one raw payload to the forecast list: the parsed
record when parsing succeeds and the record is not an error record, nothing
when the record is an error record (it is dropped) or parsing raises. -/
def parseSuccess (d : Dict) : Option Dict :=
  match parse_weather_data d with
  | none => none
  | some p => if hasKey p "error" then none else some p

/-- A record of exactly the single key "error". -/
def isErrorRecord : Dict → Bool
  | [(k, _)] => k == "error"
  | _ => false

/-- A record of exactly the five keys city, temperature, condition, humidity
and wind_speed, in that order. -/
def isSuccessRecord : Dict → Bool
  | [(k1, _), (k2, _), (k3, _), (k4, _), (k5, _)] =>
    k1 == "city" && k2 == "temperature" && k3 == "condition" &&
    k4 == "humidity" && k5 == "wind_speed"
  | _ => false

/-- The well-formed raw payload of Scenario A in the specification. -/
def parisRaw : Dict :=
  [("name", .str "Paris"),
   ("main", .obj [("temp", .num 18.5), ("humidity", .num 60)]),
   ("weather", .arr [.obj [("description", .str "clear sky")]]),
   ("wind", .obj [("speed", .num 3.1)])]

/-- The record Scenario A expects parse_weather_data to produce from parisRaw. -/
def parisParsed : Dict :=
  [("city", .str "Paris"),
   ("temperature", .num 18.5),
   ("condition", .str "clear sky"),
   ("humidity", .num 60),
   ("wind_speed", .num 3.1)]

/-- The raw payload rotated through the fetch calls of the C2 witness:
call 0 succeeds, every later call yields the in-band error record. -/
def demoFetch : Nat → Dict := fun i =>
  if i = 0 then parisRaw else [("error", .str "Unable to fetch weather data")]

/-- Helper: a filterMap whose function returns none on every element is empty. -/
theorem filterMap_eq_nil_of_none {α β : Type} {f : α → Option β} {l : List α}
    (h : ∀ a ∈ l, f a = none) : l.filterMap f = [] := by
  induction l with
  | nil => rfl
  | cons a l ih =>
    rw [List.filterMap_cons, h a (by simp)]
    exact ih (fun b hb => h b (by simp [hb]))

/-- Helper: when every parse in the remaining day list succeeds (no fault),
forecastRun issues exactly the listed fetch calls and returns the accumulator
extended by the non-error records, in call order. -/
theorem forecastRun_eq (fetch : Nat → Dict) (l : List Nat) (acc : List Dict)
    (h : ∀ i ∈ l, (parse_weather_data (fetch i)).isSome) :
    forecastRun fetch l acc =
      (l, some (acc ++ l.filterMap (fun i => parseSuccess (fetch i)))) := by
  induction l generalizing acc with
  | nil => simp [forecastRun]
  | cons i rest ih =>
    obtain ⟨p, hp⟩ := Option.isSome_iff_exists.mp (h i (by simp))
    have hrest : ∀ j ∈ rest, (parse_weather_data (fetch j)).isSome :=
      fun j hj => h j (by simp [hj])
    by_cases he : hasKey p "error"
    · simp [forecastRun, hp, he, ih _ hrest, parseSuccess, List.filterMap_cons]
    · simp [forecastRun, hp, he, ih _ hrest, parseSuccess, List.filterMap_cons]

/-- C4: error payloads pass through parse_weather_data unchanged: for every
string X, parsing the single-key mapping with "error" bound to X returns that
same mapping. -/
theorem parse_weather_data_error_passthrough (s : String) :
    parse_weather_data [("error", JVal.str s)] = some [("error", JVal.str s)] := rfl

/-- C10: a raw payload containing the key "error", whatever other keys it
carries, parses to exactly the single-key record carrying the stored error
value; every other key of the input is discarded. -/
theorem parse_weather_data_error_single_key (data : Dict)
    (h : hasKey data "error" = true) :
    parse_weather_data data = some [("error", dictGetD data "error" JVal.null)] := by
  rw [parse_weather_data, if_pos h]

/-- Witness for C10 at a payload mixing the "error" key with two other keys. -/
theorem parse_weather_data_error_single_key_witness :
    parse_weather_data
      [("error", JVal.str "boom"), ("name", JVal.str "Paris"),
       ("wind", JVal.obj [("speed", JVal.num 3.1)])] =
      some [("error", JVal.str "boom")] :=
  parse_weather_data_error_single_key
    [("error", JVal.str "boom"), ("name", JVal.str "Paris"),
     ("wind", JVal.obj [("speed", JVal.num 3.1)])] rfl

/-- C5: on a well-formed payload carrying name, main.temp, main.humidity,
weather[0].description and wind.speed, parse_weather_data returns exactly the
five documented fields with the corresponding values and no extras; in
particular the Scenario A payload for Paris parses to the documented record. -/
theorem parse_weather_data_wellformed (n t c h w : JVal) :
    parse_weather_data
      [("name", n),
       ("main", JVal.obj [("temp", t), ("humidity", h)]),
       ("weather", JVal.arr [JVal.obj [("description", c)]]),
       ("wind", JVal.obj [("speed", w)])] =
      some [("city", n), ("temperature", t), ("condition", c),
            ("humidity", h), ("wind_speed", w)] ∧
    parse_weather_data parisRaw = some parisParsed :=
  ⟨rfl, rfl⟩

/-- C1: evaluation of the code at the failing input: a payload whose
"weather" key holds the empty list makes parse_weather_data raise IndexError
(the default [the empty dict] in data.get("weather", ...) only applies when
the key is absent, so the subscript [0] hits an empty list), embedded as
none — not the success record with condition absent that the claim states. -/
theorem parse_weather_data_empty_weather_faults :
    parse_weather_data [("weather", JVal.arr [])] = none := rfl

/-- C3: whenever parse_weather_data returns a record, that record is either
exactly the single-key error record or exactly the five-key success record,
and never both shapes at once. -/
theorem parse_weather_data_record_shape (data r : Dict)
    (h : parse_weather_data data = some r) :
    (isErrorRecord r = true ∨ isSuccessRecord r = true) ∧
    ¬(isErrorRecord r = true ∧ isSuccessRecord r = true) := by
  rw [parse_weather_data] at h
  by_cases he : hasKey data "error"
  · rw [if_pos he, Option.some_inj] at h
    subst h
    exact ⟨Or.inl rfl, by simp [isSuccessRecord]⟩
  · rw [if_neg he] at h
    simp only [Option.bind_eq_some] at h
    obtain ⟨w, -, t, -, c, -, hu, -, ws, -, hr⟩ := h
    rw [Option.some_inj] at hr
    subst hr
    exact ⟨Or.inr rfl, by simp [isErrorRecord]⟩

/-- Witness for C3 at the Scenario A payload and its parsed record. -/
theorem parse_weather_data_record_shape_witness :
    (isErrorRecord parisParsed = true ∨ isSuccessRecord parisParsed = true) ∧
    ¬(isErrorRecord parisParsed = true ∧ isSuccessRecord parisParsed = true) :=
  parse_weather_data_record_shape parisRaw parisParsed rfl

/-- C8: parse_weather_data is deterministic: two runs on equal raw payloads
return equal records. The embedding is a pure function because the source
function performs no I/O and never writes to its argument or to any outer
state; given that, determinism is the congruence below. -/
theorem parse_weather_data_deterministic (d1 d2 : Dict) (h : d1 = d2) :
    parse_weather_data d1 = parse_weather_data d2 := by rw [h]

/-- Witness for C8 at the Scenario A payload. -/
theorem parse_weather_data_deterministic_witness :
    parse_weather_data parisRaw = parse_weather_data parisRaw :=
  parse_weather_data_deterministic parisRaw parisRaw rfl

/-- C6: fetch_weather never raises: on any non-200 status it returns the
in-band error record, and on status 200 it returns the decoded body
unchanged. The city string only shapes the outbound request, never this
branching, so the statement quantifies over the provider response. -/
theorem fetch_weather_status_cases (response : HttpResponse) :
    (response.status_code ≠ 200 →
      fetch_weather response = [("error", JVal.str "Unable to fetch weather data")]) ∧
    (response.status_code = 200 → fetch_weather response = response.body) := by
  refine ⟨fun h => ?_, fun h => ?_⟩ <;> simp [fetch_weather, h]

/-- Witness for C6 at a 404 response and at a 200 response carrying the
Scenario A body. -/
theorem fetch_weather_status_cases_witness :
    fetch_weather (HttpResponse.mk 404 []) =
      [("error", JVal.str "Unable to fetch weather data")] ∧
    fetch_weather (HttpResponse.mk 200 parisRaw) = parisRaw :=
  ⟨(fetch_weather_status_cases (HttpResponse.mk 404 [])).1 (by decide),
   (fetch_weather_status_cases (HttpResponse.mk 200 parisRaw)).2 rfl⟩

/-- C2: for days = N at least 1, when no iteration faults, get_forecast
issues exactly the N fetch calls 0..N-1 in order, returns the non-error
records filtered out of the parses in call order, and that returned sequence
has length at most N. -/
theorem get_forecast_correct (fetch : Nat → Dict) (days : Int) (h1 : 1 ≤ days)
    (h : ∀ i, i < days.toNat → (parse_weather_data (fetch i)).isSome) :
    get_forecast_calls fetch days = List.range days.toNat ∧
    (get_forecast_calls fetch days).length = days.toNat ∧
    get_forecast fetch days =
      some ((List.range days.toNat).filterMap (fun i => parseSuccess (fetch i))) ∧
    ((List.range days.toNat).filterMap (fun i => parseSuccess (fetch i))).length ≤
      days.toNat := by
  have key := forecastRun_eq fetch (List.range days.toNat) []
    (fun i hi => h i (List.mem_range.mp hi))
  refine ⟨?_, ?_, ?_, ?_⟩
  · rw [get_forecast_calls, key]
  · rw [get_forecast_calls, key]
    exact List.length_range days.toNat
  · rw [get_forecast, key, List.nil_append]
  · calc ((List.range days.toNat).filterMap (fun i => parseSuccess (fetch i))).length
        ≤ (List.range days.toNat).length := List.length_filterMap_le _ _
      _ = days.toNat := List.length_range days.toNat

/-- Witness for C2: two fetch calls, the first succeeding with the Scenario A
payload, the second yielding the provider error record. -/
theorem get_forecast_correct_witness :
    get_forecast_calls demoFetch 2 = List.range (2 : Int).toNat ∧
    (get_forecast_calls demoFetch 2).length = (2 : Int).toNat ∧
    get_forecast demoFetch 2 =
      some ((List.range (2 : Int).toNat).filterMap (fun i => parseSuccess (demoFetch i))) ∧
    ((List.range (2 : Int).toNat).filterMap (fun i => parseSuccess (demoFetch i))).length ≤
      (2 : Int).toNat :=
  get_forecast_correct demoFetch 2 (by decide) (by
    intro i hi
    match i with
    | 0 => rfl
    | 1 => rfl
    | n + 2 => exact absurd hi (by omega))

/-- C7: when every provider response within the forecast window is non-200,
every fetch yields the in-band error record, every parsed record is dropped,
and get_forecast returns the empty sequence rather than a fault. -/
theorem get_forecast_all_errors (responses : Nat → HttpResponse) (days : Int)
    (h1 : 1 ≤ days) (h : ∀ i, (responses i).status_code ≠ 200) :
    get_forecast (fun i => fetch_weather (responses i)) days = some [] := by
  have hfetch : ∀ i, fetch_weather (responses i) =
      [("error", JVal.str "Unable to fetch weather data")] :=
    fun i => by simp [fetch_weather, h i]
  have key := forecastRun_eq (fun i => fetch_weather (responses i))
    (List.range days.toNat) []
    (fun i _ => by simp only [hfetch i]; rfl)
  rw [get_forecast, key, List.nil_append]
  exact congrArg some (filterMap_eq_nil_of_none (fun i _ => by simp only [hfetch i]; rfl))

/-- Witness for C7: a three-day forecast in which every response is a 404. -/
theorem get_forecast_all_errors_witness :
    get_forecast (fun i => fetch_weather ((fun _ => HttpResponse.mk 404 []) i)) 3 =
      some [] :=
  get_forecast_all_errors (fun _ => HttpResponse.mk 404 []) 3 (by decide)
    (fun i => by show (404 : Nat) ≠ 200; decide)

/-- C9: for a day count of zero or below, range(1, days + 1) is empty, so
get_forecast returns the empty sequence and issues no fetch call at all. -/
theorem get_forecast_nonpositive (fetch : Nat → Dict) (days : Int) (h : days ≤ 0) :
    get_forecast fetch days = some [] ∧ get_forecast_calls fetch days = [] := by
  have hnt : days.toNat = 0 := Int.toNat_of_nonpos h
  rw [get_forecast, get_forecast_calls, hnt]
  exact ⟨rfl, rfl⟩

/-- Witness for C9 at days = -2. -/
theorem get_forecast_nonpositive_witness :
    get_forecast (fun _ => ([] : Dict)) (-2) = some [] ∧
    get_forecast_calls (fun _ => ([] : Dict)) (-2) = [] :=
  get_forecast_nonpositive (fun _ => ([] : Dict)) (-2) (by decide)
